import Mathlib

/-!
Shallow embedding of the trading core of `trading_simulator.py` (and the
price floor of `trading_dashboard.py`) from the repository
krrishapatel/Algorithmic-Trading-Simulator, together with proofs about it.

Modelling conventions:
* Python floats are modelled by `ℚ` for the portfolio / market-data side of
  the code, and by `ℝ` on the indicator / strategy side, where the source
  takes square roots (`math.sqrt`, `statistics.stdev`).
* Calls to the random source (`random.gauss`, `random.uniform`) are modelled
  by explicit draw parameters: a Gaussian draw can take any real value, so
  the draws are unconstrained arguments.
* Python dicts, used only through `d.get(k, default)` and item assignment,
  are modelled by total functions with a default, or by association lists
  where the source iterates over the dict.
* Division by zero in the source would raise `ZeroDivisionError`; in the
  embedding `x / 0 = 0`.  No claim below depends on a division-by-zero state.
* `datetime` timestamps and the string trade ids carry no information used
  by any claim and are omitted from the records.
-/

/-- Python `int(x)` applied to a float: truncation toward zero. -/
def pyInt (q : ℚ) : ℤ :=
  if 0 ≤ q then ⌊q⌋ else ⌈q⌉

/-- Python `d.get(key, default)` on a dict modelled as an association list. -/
def dictGet {α : Type} (m : List (String × α)) (key : String) (default : α) : α :=
  match m.find? (fun kv => kv.1 == key) with
  | some kv => kv.2
  | none => default

/-- Python `l[-n:]`: the last `n` elements of a list (the whole list if it is
shorter than `n`). -/
def lastN {α : Type} (n : ℕ) (l : List α) : List α :=
  l.drop (l.length - n)

/-! ## Market data side (`trading_simulator.py`, `AdvancedTradingSimulator`) -/

/-- `class AssetType(Enum)` of `trading_simulator.py`. -/
inductive AssetType where
  | stock
  | crypto
  | forex
  | commodity
deriving DecidableEq

/-- `@dataclass Asset` of `trading_simulator.py`.  `market_hours` is the
`(open_hour, close_hour)` pair. -/
structure Asset where
  symbol : String
  name : String
  asset_type : AssetType
  base_price : ℚ
  volatility : ℚ
  correlation_matrix : List (String × ℚ)
  market_hours : ℕ × ℕ
  timezone_offset : ℤ

/-- `@dataclass MarketData` of `trading_simulator.py`, minus the timestamp. -/
structure MarketData where
  symbol : String
  price : ℚ
  volume : ℤ
  high : ℚ
  low : ℚ
  open_price : ℚ
  bid : ℚ
  ask : ℚ
  spread : ℚ

/-- The four random draws consumed by one call of
`AdvancedTradingSimulator.generate_market_data`:
`price_change = random.gauss(0, volatility * time_factor * 0.01)` (a Gaussian
draw, hence unconstrained), `volume_change = random.uniform(-0.3, 0.3)`,
`high_factor = random.uniform(1.0, 1.02)`, `low_factor = random.uniform(0.98, 1.0)`. -/
structure MarketDraws where
  price_change : ℚ
  volume_change : ℚ
  high_factor : ℚ
  low_factor : ℚ

namespace AdvancedTradingSimulator

/-- `AdvancedTradingSimulator.generate_market_data` (lines 353-400 of
`trading_simulator.py`).  `current_hour` stands for `datetime.now().hour`;
it only scales the standard deviation of the Gaussian draw (`time_factor`),
so it does not constrain the drawn `price_change` value.  Returns the tick
together with the updated asset (the source mutates `asset.base_price`
*before* building the `MarketData` record, so `open_price` reads the
already-updated base price). -/
def generate_market_data (asset : Asset) (current_hour : ℕ) (d : MarketDraws) :
    MarketData × Asset :=
  let new_price := asset.base_price * (1 + d.price_change)
  let base_volume : ℚ := if asset.asset_type = AssetType.stock then 1000000 else 100000
  let new_volume := pyInt (base_volume * (1 + d.volume_change))
  let high := new_price * d.high_factor
  let low := new_price * d.low_factor
  let spread_pct : ℚ := if asset.asset_type = AssetType.stock then 1/1000 else 1/100
  let spread := new_price * spread_pct
  let bid := new_price - spread / 2
  let ask := new_price + spread / 2
  let asset' := { asset with base_price := new_price }
  ({ symbol := asset.symbol
     price := new_price
     volume := new_volume
     high := high
     low := low
     open_price := asset'.base_price
     bid := bid
     ask := ask
     spread := spread }, asset')

end AdvancedTradingSimulator

/-- The price-update step of `TradingSimulator.update_market_data` in
`trading_dashboard.py` (lines 122-128): `new_price = price * (1 + price_change)`,
then stocks are floored at 1.0 and crypto at 0.01.  Asset types in the
dashboard are the strings `'stock'`, `'crypto'`, ... (dict entries). -/
def dashboard_new_price (asset_type : String) (price : ℚ) (price_change : ℚ) : ℚ :=
  let np := price * (1 + price_change)
  if asset_type = "stock" then max np 1
  else if asset_type = "crypto" then max np (1/100)
  else np

/-! ## Risk manager and execution (`RiskManager`, `AdvancedTradingSimulator.execute_trade`) -/

/-- The configuration fields of `class RiskManager` (`trading_simulator.py`
lines 267-275); constructor defaults `max_position_size=0.1`,
`max_daily_loss=0.05`, and `self.correlation_threshold = 0.7`. -/
structure RiskManager where
  max_position_size : ℚ
  max_daily_loss : ℚ
  correlation_threshold : ℚ

namespace RiskManager

/-- `RiskManager.__init__` with its default arguments. -/
def default : RiskManager :=
  { max_position_size := 1/10, max_daily_loss := 1/20, correlation_threshold := 7/10 }

/-- `RiskManager.check_position_limit` (lines 277-282). -/
def check_position_limit (rm : RiskManager) (quantity : ℤ) (price : ℚ)
    (portfolio_value : ℚ) : Bool :=
  let position_value := |(quantity : ℚ) * price|
  let position_ratio := position_value / portfolio_value
  decide (position_ratio ≤ rm.max_position_size)

/-- `RiskManager.check_daily_loss_limit` (lines 284-286).  Note the source
compares the pnl (in currency units) directly with `max_daily_loss` (a
fraction); it is also never called anywhere in the repository. -/
def check_daily_loss_limit (rm : RiskManager) (new_pnl : ℚ) : Bool :=
  decide (new_pnl ≥ -rm.max_daily_loss)

/-- `RiskManager.check_correlation_risk` (lines 288-296): reject (return
`false`) when some non-zero existing position has correlation with the new
symbol of absolute value above the threshold.  Never called anywhere in the
repository. -/
def check_correlation_risk (rm : RiskManager) (new_symbol : String)
    (existing_positions : List (String × ℤ))
    (correlation_matrix : List (String × List (String × ℚ))) : Bool :=
  existing_positions.all fun kv =>
    kv.2 == 0 ||
      decide (|dictGet (dictGet correlation_matrix new_symbol []) kv.1 0| ≤
        rm.correlation_threshold)

end RiskManager

/-- `@dataclass Portfolio` of `trading_simulator.py`.  `positions` is the
dict `symbol -> int`, accessed in the source only via `get(symbol, 0)` and
item assignment, hence modelled as a total function with default 0. -/
structure Portfolio where
  cash : ℚ
  positions : String → ℤ
  total_value : ℚ
  daily_pnl : ℚ
  total_pnl : ℚ
  sharpe_ratio : ℚ
  max_drawdown : ℚ
  win_rate : ℚ

/-- `@dataclass Trade` of `trading_simulator.py`, minus id/timestamp/strategy
(strings not inspected by any claim). -/
structure TradeRec where
  symbol : String
  side : String
  quantity : ℤ
  price : ℚ
  pnl : ℚ
  fees : ℚ

namespace AdvancedTradingSimulator

/-- `AdvancedTradingSimulator.execute_trade` (lines 402-439).  The simulator
state touched by the method is `(self.portfolio, self.trades)`; the method
returns `True`/`False`, so the embedding returns the flag together with the
updated portfolio and trade log.  The only risk check the source performs is
`check_position_limit`. -/
def execute_trade (rm : RiskManager) (p : Portfolio) (trades : List TradeRec)
    (symbol side : String) (quantity : ℤ) (price : ℚ) :
    Bool × Portfolio × List TradeRec :=
  if ¬ rm.check_position_limit quantity price p.total_value then
    (false, p, trades)
  else
    let trade_value := (quantity : ℚ) * price
    let fees := trade_value * (1/1000)
    if side = "BUY" then
      if p.cash < trade_value + fees then
        (false, p, trades)
      else
        (true,
         { p with
            cash := p.cash - (trade_value + fees)
            positions := fun s =>
              if s = symbol then p.positions symbol + quantity else p.positions s },
         trades ++ [⟨symbol, side, quantity, price, 0, fees⟩])
    else
      if p.positions symbol < quantity then
        (false, p, trades)
      else
        (true,
         { p with
            cash := p.cash + (trade_value - fees)
            positions := fun s =>
              if s = symbol then p.positions symbol - quantity else p.positions s },
         trades ++ [⟨symbol, side, quantity, price, 0, fees⟩])

end AdvancedTradingSimulator

/-! ## Indicator / strategy side (real-valued: the source uses `math.sqrt`
and `statistics.stdev` here) -/

/-- `statistics.stdev`: sample standard deviation,
`sqrt (Σ (x - mean)² / (n - 1))`. -/
noncomputable def stdev (xs : List ℝ) : ℝ :=
  let m := xs.sum / (xs.length : ℝ)
  Real.sqrt ((xs.map (fun x => (x - m) ^ 2)).sum / ((xs.length : ℝ) - 1))

/-- The consecutive differences `[prices[i] - prices[i-1] for i in range(1, len(prices))]`. -/
noncomputable def priceDiffs (prices : List ℝ) : List ℝ :=
  (prices.tail.zip prices).map fun pr => pr.1 - pr.2

/-- The per-step returns `[(prices[i] - prices[i-1]) / prices[i-1] ...]` used by
`AdvancedVWAPStrategy.calculate_volatility`. -/
noncomputable def pctReturns (prices : List ℝ) : List ℝ :=
  (prices.tail.zip prices).map fun pr => (pr.1 - pr.2) / pr.2

namespace AdvancedVWAPStrategy

/-- `AdvancedVWAPStrategy.calculate_vwap` (lines 98-106). -/
noncomputable def calculate_vwap (prices : List ℝ) (volumes : List ℤ) : ℝ :=
  if prices.isEmpty || volumes.isEmpty then 0
  else
    let total_pv := ((prices.zip volumes).map fun pv => pv.1 * (pv.2 : ℝ)).sum
    let total_volume := volumes.sum
    if 0 < total_volume then total_pv / (total_volume : ℝ) else 0

/-- `AdvancedVWAPStrategy.calculate_momentum` (lines 108-124): ordinary
least-squares slope of price against index position. -/
noncomputable def calculate_momentum (prices : List ℝ) : ℝ :=
  if prices.length < 5 then 0
  else
    let n : ℝ := prices.length
    let xs : List ℝ := (List.range prices.length).map (fun i => (i : ℝ))
    let sum_x := xs.sum
    let sum_y := prices.sum
    let sum_xy := ((xs.zip prices).map fun pr => pr.1 * pr.2).sum
    let sum_x2 := (xs.map fun x => x ^ 2).sum
    (n * sum_xy - sum_x * sum_y) / (n * sum_x2 - sum_x ^ 2)

/-- `AdvancedVWAPStrategy.calculate_volatility` (lines 126-132). -/
noncomputable def calculate_volatility (prices : List ℝ) : ℝ :=
  if prices.length < 2 then 0
  else
    let returns := pctReturns prices
    if 1 < returns.length then stdev returns else 0

/-- The mutable per-symbol state of `AdvancedVWAPStrategy`:
`self.price_history` and `self.volume_history` (the other appended lists
never feed back into the signal). -/
structure State where
  price_history : List ℝ
  volume_history : List ℤ

/-- `AdvancedVWAPStrategy.generate_signal` (lines 134-177): appends the tick
to the buffers, truncates them to `lookback_period` (default 20), and emits
an `(action, confidence)` pair; confidence is `abs(signal_strength)` in every
post-warmup branch.  Returns the updated state together with the pair. -/
noncomputable def generate_signal (lookback_period : ℕ) (s : State)
    (current_price : ℝ) (current_volume : ℤ) : State × String × ℝ :=
  let ph0 := s.price_history ++ [current_price]
  let vh0 := s.volume_history ++ [current_volume]
  let ph := if lookback_period < ph0.length then ph0.drop 1 else ph0
  let vh := if lookback_period < ph0.length then vh0.drop 1 else vh0
  let s' : State := ⟨ph, vh⟩
  if ph.length < 5 then (s', "HOLD", 0)
  else
    let vwap := calculate_vwap ph vh
    let momentum := calculate_momentum ph
    let volatility := calculate_volatility ph
    let price_deviation := if 0 < vwap then (current_price - vwap) / vwap else 0
    let momentum_factor := if 0 < current_price then momentum / current_price else 0
    let vol_factor := if 0 < volatility then 1 / (1 + volatility * 100) else 1
    let signal_strength := price_deviation * 0.4 + momentum_factor * 0.4 + vol_factor * 0.2
    if signal_strength < -0.02 then (s', "BUY", |signal_strength|)
    else if 0.02 < signal_strength then (s', "SELL", |signal_strength|)
    else (s', "HOLD", |signal_strength|)

end AdvancedVWAPStrategy

namespace MeanReversionStrategy

/-- `MeanReversionStrategy.calculate_bollinger_bands` (lines 190-204).
`std_dev` and `period` are the instance fields (constructor defaults 2.0
and 20). -/
noncomputable def calculate_bollinger_bands (std_dev : ℝ) (period : ℕ)
    (prices : List ℝ) : ℝ × ℝ × ℝ :=
  if prices.length < period then (0, 0, 0)
  else
    let recent_prices := lastN period prices
    let sma := recent_prices.sum / (recent_prices.length : ℝ)
    let variance := ((recent_prices.map fun p => (p - sma) ^ 2).sum) / (recent_prices.length : ℝ)
    let std := Real.sqrt variance
    (sma + std_dev * std, sma, sma - std_dev * std)

/-- The gains list of `MeanReversionStrategy.calculate_rsi`: per change,
`change` if positive else `0`. -/
noncomputable def rsiGains (prices : List ℝ) : List ℝ :=
  (priceDiffs prices).map fun c => if 0 < c then c else 0

/-- The losses list of `MeanReversionStrategy.calculate_rsi`: per change,
`abs change` if the change is not positive, else `0`. -/
noncomputable def rsiLosses (prices : List ℝ) : List ℝ :=
  (priceDiffs prices).map fun c => if 0 < c then 0 else |c|

/-- `avg_gain = sum(gains[-period:]) / period`. -/
noncomputable def avgGain (prices : List ℝ) (period : ℕ) : ℝ :=
  (lastN period (rsiGains prices)).sum / (period : ℝ)

/-- `avg_loss = sum(losses[-period:]) / period`. -/
noncomputable def avgLoss (prices : List ℝ) (period : ℕ) : ℝ :=
  (lastN period (rsiLosses prices)).sum / (period : ℝ)

/-- `MeanReversionStrategy.calculate_rsi` (lines 206-232), default
`period = 14`. -/
noncomputable def calculate_rsi (prices : List ℝ) (period : ℕ) : ℝ :=
  if prices.length < period + 1 then 50
  else
    let avg_gain := avgGain prices period
    let avg_loss := avgLoss prices period
    if avg_loss = 0 then 100
    else
      let rs := avg_gain / avg_loss
      100 - 100 / (1 + rs)

/-- `MeanReversionStrategy.generate_signal` (lines 234-264): appends the
price to `self.price_history`, truncates to `2 * period`, and emits the
`(action, confidence)` pair; returns the updated history with the pair.
`std_dev` and `period` are the instance fields (defaults 2.0 and 20); the
inner RSI call uses its own default period 14. -/
noncomputable def generate_signal (period : ℕ) (std_dev : ℝ)
    (price_history : List ℝ) (current_price : ℝ) : List ℝ × String × ℝ :=
  let ph := price_history ++ [current_price]
  let ph := if period * 2 < ph.length then ph.drop 1 else ph
  if ph.length < period then (ph, "HOLD", 0)
  else
    let bands := calculate_bollinger_bands std_dev period ph
    let upper := bands.1
    let lower := bands.2.2
    let rsi := calculate_rsi ph 14
    if current_price < lower ∧ rsi < 30 then
      (ph, "BUY", min 1 ((lower - current_price) / lower * 2))
    else if upper < current_price ∧ 70 < rsi then
      (ph, "SELL", min 1 ((current_price - upper) / upper * 2))
    else
      (ph, "HOLD", 0)

end MeanReversionStrategy

/-! ## Concrete instances from `AdvancedTradingSimulator.__init__` /
`_initialize_assets`, used by the theorems below -/

/-- The `'AAPL'` asset of `_initialize_assets` (line 331). -/
def aaplAsset : Asset :=
  { symbol := "AAPL"
    name := "Apple Inc."
    asset_type := AssetType.stock
    base_price := 150
    volatility := 1/4
    correlation_matrix := [("MSFT", 3/5), ("GOOGL", 1/2), ("TSLA", 2/5)]
    market_hours := (9, 16)
    timezone_offset := -5 }

/-- The nested correlation map `symbol -> symbol -> coefficient` assembled
from the `correlation_matrix` fields of `_initialize_assets` (lines 330-351),
in the shape `RiskManager.check_correlation_risk` expects. -/
def assetsCorrelation : List (String × List (String × ℚ)) :=
  [("AAPL", [("MSFT", 3/5), ("GOOGL", 1/2), ("TSLA", 2/5)]),
   ("MSFT", [("AAPL", 3/5), ("GOOGL", 7/10), ("TSLA", 3/10)]),
   ("GOOGL", [("AAPL", 1/2), ("MSFT", 7/10), ("TSLA", 2/5)]),
   ("TSLA", [("AAPL", 2/5), ("MSFT", 3/10), ("GOOGL", 2/5)]),
   ("BTC", [("ETH", 4/5), ("AAPL", 1/10), ("MSFT", 1/10)]),
   ("ETH", [("BTC", 4/5), ("AAPL", 1/10), ("MSFT", 1/10)]),
   ("EUR/USD", [("GBP/USD", 4/5), ("USD/JPY", 3/10), ("AAPL", 1/10)]),
   ("GBP/USD", [("EUR/USD", 4/5), ("USD/JPY", 2/5), ("AAPL", 1/10)]),
   ("GOLD", [("SILVER", 7/10), ("AAPL", -(1/10)), ("MSFT", -(1/10))]),
   ("SILVER", [("GOLD", 7/10), ("AAPL", -(1/10)), ("MSFT", -(1/10))])]

/-- The initial portfolio of `AdvancedTradingSimulator.__init__` (lines
306-315): cash 1,000,000, no positions. -/
def initialPortfolio : Portfolio :=
  { cash := 1000000
    positions := fun _ => 0
    total_value := 1000000
    daily_pnl := 0
    total_pnl := 0
    sharpe_ratio := 0
    max_drawdown := 0
    win_rate := 0 }

/-- A risk manager built as `RiskManager(max_position_size=0.15)`, the
configuration of the position-size scenario in the specification. -/
def rmPos15 : RiskManager :=
  { max_position_size := 15/100, max_daily_loss := 1/20, correlation_threshold := 7/10 }

/-- A risk manager built as `RiskManager(max_daily_loss=0.03)`, the
configuration of the daily-loss scenario in the specification. -/
def rmLoss3 : RiskManager :=
  { max_position_size := 1/10, max_daily_loss := 3/100, correlation_threshold := 7/10 }

/-- The initial portfolio after a daily loss of $40,000 has been booked to
`daily_pnl` (the daily-loss scenario of the specification). -/
def portfolioLoss40k : Portfolio :=
  { initialPortfolio with daily_pnl := -40000 }

/-- The initial portfolio holding an existing position of 100 ETH (the
correlation scenario: BTC/ETH correlation 0.8 exceeds the threshold 0.7). -/
def portfolioEth : Portfolio :=
  { initialPortfolio with positions := fun s => if s = "ETH" then 100 else 0 }

/-! ## Theorems -/

open AdvancedTradingSimulator

/-- C10: Every MarketData tick returned by
`AdvancedTradingSimulator.generate_market_data` has `open_price` equal to its
`price` field: the asset's stored base price is overwritten with the newly
generated price before the tick record is constructed, so the returned tick
never carries the pre-move opening price. -/
theorem C10_theorem (asset : Asset) (current_hour : ℕ) (d : MarketDraws) :
    (generate_market_data asset current_hour d).1.open_price =
      (generate_market_data asset current_hour d).1.price := rfl

/-- C5, counterexample: `AdvancedTradingSimulator.generate_market_data`
applies no class-specific floor.  For the stock asset AAPL (base price 150)
and the Gaussian draw `price_change = -0.999` the returned tick's price, and
the updated stored base price, are `0.15 < 1`. -/
theorem C5_counterexample :
    aaplAsset.asset_type = AssetType.stock ∧
    (generate_market_data aaplAsset 10 ⟨-(999/1000), 0, 1, 1⟩).1.price < 1 ∧
    (generate_market_data aaplAsset 10 ⟨-(999/1000), 0, 1, 1⟩).2.base_price < 1 := by
  refine ⟨rfl, ?_, ?_⟩ <;>
    norm_num [generate_market_data, aaplAsset]

/-- C5, amended: the class-specific price floor exists only in the dashboard
generator: for every price and every price-change draw,
`TradingSimulator.update_market_data` of `trading_dashboard.py` keeps a
stock's new price at least 1.0 (`AdvancedTradingSimulator.generate_market_data`
applies no such floor, see the counterexample). -/
theorem C5_theorem (price price_change : ℚ) :
    1 ≤ dashboard_new_price "stock" price price_change := by
  simp [dashboard_new_price]

/-- C2, counterexample: with `max_position_size = 0.15`, portfolio total
value $1,000,000 and a proposed BUY of 2000 shares at $100 (position value
$200,000), `execute_trade` rejects the trade outright — it returns `False`
and leaves the position at 0 — instead of executing a clipped trade of
position value $150,000 as the claim states. -/
theorem C2_counterexample :
    (execute_trade rmPos15 initialPortfolio [] "AAPL" "BUY" 2000 100).1 = false ∧
    (execute_trade rmPos15 initialPortfolio [] "AAPL" "BUY" 2000 100).2.1.positions "AAPL" = 0 ∧
    (execute_trade rmPos15 initialPortfolio [] "AAPL" "BUY" 2000 100).2.2 = [] := by
  refine ⟨?_, ?_, ?_⟩ <;>
    norm_num [execute_trade, RiskManager.check_position_limit, rmPos15, initialPortfolio]

/-- C2, amended: when a proposed trade's position value `|quantity × price|`
exceeds `max_position_size × total_value` (equivalently, the position ratio
exceeds `max_position_size`), `execute_trade` rejects the trade outright:
it returns `False` and leaves the portfolio and the trade log unchanged.
No clipping to the maximum permissible size takes place. -/
theorem C2_theorem (rm : RiskManager) (p : Portfolio) (trades : List TradeRec)
    (symbol side : String) (quantity : ℤ) (price : ℚ)
    (h : rm.max_position_size < |(quantity : ℚ) * price| / p.total_value) :
    execute_trade rm p trades symbol side quantity price = (false, p, trades) := by
  have hchk : rm.check_position_limit quantity price p.total_value = false := by
    simp only [RiskManager.check_position_limit, decide_eq_false_iff_not, not_le]
    exact h
  simp [execute_trade, hchk]

/-- C2, witness: the specification's scenario numbers
(`max_position_size = 0.15`, total value $1,000,000, position value
$200,000) satisfy the hypothesis of `C2_theorem`, and the trade is
rejected unchanged. -/
theorem C2_witness :
    rmPos15.max_position_size < |((2000 : ℤ) : ℚ) * 100| / initialPortfolio.total_value ∧
    execute_trade rmPos15 initialPortfolio [] "AAPL" "BUY" 2000 100 =
      (false, initialPortfolio, []) := by
  constructor
  · norm_num [rmPos15, initialPortfolio]
  · exact C2_theorem rmPos15 initialPortfolio [] "AAPL" "BUY" 2000 100
      (by norm_num [rmPos15, initialPortfolio])

/-- C1, counterexample: `execute_trade` does not validate the sign of
`quantity`.  Starting from the initial portfolio (cash $1,000,000 ≥ 0, all
positions 0 ≥ 0), the call `execute_trade('AAPL', 'BUY', -100, 100)` passes
the position-size check (`|-100 × 100| / 1,000,000 = 0.01 ≤ 0.1`), is not
caught by the cash check (`cash < trade_value + fees` is false for a negative
trade value), executes, and leaves the AAPL position at `-100 < 0`. -/
theorem C1_counterexample :
    initialPortfolio.cash = 1000000 ∧
    initialPortfolio.positions "AAPL" = 0 ∧
    (execute_trade RiskManager.default initialPortfolio [] "AAPL" "BUY" (-100) 100).1 = true ∧
    (execute_trade RiskManager.default initialPortfolio []
      "AAPL" "BUY" (-100) 100).2.1.positions "AAPL" < 0 := by
  refine ⟨rfl, rfl, ?_, ?_⟩ <;>
    norm_num [execute_trade, RiskManager.check_position_limit, RiskManager.default,
      initialPortfolio]

/-- C1, amended: for every call of `execute_trade` with non-negative
`quantity` and `price`, starting from a portfolio with `cash ≥ 0` and every
position `≥ 0`: the resulting cash and positions are again non-negative; a
BUY whose trade value plus fees exceeds cash is rejected with portfolio and
trade log unchanged; and a SELL whose quantity exceeds the held position is
rejected with portfolio and trade log unchanged. -/
theorem C1_theorem (rm : RiskManager) (p : Portfolio) (trades : List TradeRec)
    (symbol side : String) (quantity : ℤ) (price : ℚ)
    (hcash : 0 ≤ p.cash) (hpos : ∀ s, 0 ≤ p.positions s)
    (hq : 0 ≤ quantity) (hpr : 0 ≤ price) :
    (0 ≤ (execute_trade rm p trades symbol side quantity price).2.1.cash ∧
      ∀ s, 0 ≤ (execute_trade rm p trades symbol side quantity price).2.1.positions s) ∧
    (side = "BUY" →
      p.cash < (quantity : ℚ) * price + (quantity : ℚ) * price * (1/1000) →
      execute_trade rm p trades symbol side quantity price = (false, p, trades)) ∧
    (side = "SELL" → p.positions symbol < quantity →
      execute_trade rm p trades symbol side quantity price = (false, p, trades)) := by
  have hqp : 0 ≤ (quantity : ℚ) * price :=
    mul_nonneg (by exact_mod_cast hq) hpr
  simp only [execute_trade]
  split_ifs with h1 h2 h3 h4
  · exact ⟨⟨hcash, hpos⟩, fun _ _ => rfl, fun _ _ => rfl⟩
  · -- BUY accepted: cash ≥ trade_value + fees, position increases by quantity
    push_neg at h3
    refine ⟨⟨?_, ?_⟩, ?_, ?_⟩
    · dsimp only
      linarith
    · intro s
      dsimp only
      split_ifs with hs
      · exact add_nonneg (hpos symbol) hq
      · exact hpos s
    · intro _ hcond
      linarith
    · intro hside _
      rw [h2] at hside
      exact absurd hside (by decide)
  · exact ⟨⟨hcash, hpos⟩, fun _ _ => rfl, fun _ _ => rfl⟩
  · -- SELL accepted: held position covers the quantity, cash only grows
    push_neg at h4
    refine ⟨⟨?_, ?_⟩, ?_, ?_⟩
    · dsimp only
      have hfe : (quantity : ℚ) * price * (1/1000) ≤ (quantity : ℚ) * price := by linarith
      linarith
    · intro s
      dsimp only
      split_ifs with hs
      · omega
      · exact hpos s
    · intro hside _
      exact absurd hside h2
    · intro _ hcond
      omega
  · exact ⟨⟨hcash, hpos⟩, fun _ _ => rfl, fun _ _ => rfl⟩

/-- C1, witness: the amended theorem applied at the initial portfolio and a
BUY of 100 shares at $100 under the default risk configuration: all
hypotheses hold and the resulting cash and AAPL position are non-negative. -/
theorem C1_witness :
    0 ≤ initialPortfolio.cash ∧ 0 ≤ (100 : ℤ) ∧ 0 ≤ (100 : ℚ) ∧
    0 ≤ (execute_trade RiskManager.default initialPortfolio [] "AAPL" "BUY" 100 100).2.1.cash ∧
    0 ≤ (execute_trade RiskManager.default initialPortfolio []
          "AAPL" "BUY" 100 100).2.1.positions "AAPL" := by
  have h := C1_theorem RiskManager.default initialPortfolio [] "AAPL" "BUY" 100 100
    (by norm_num [initialPortfolio]) (fun s => by norm_num [initialPortfolio])
    (by norm_num) (by norm_num)
  exact ⟨by norm_num [initialPortfolio], by norm_num, by norm_num, h.1.1, h.1.2 "AAPL"⟩

/-- C3: the daily-loss gate is never enforced.  In the scenario state
(`daily_pnl = -$40,000`, total value $1,000,000, `max_daily_loss = 0.03`, so
`daily_pnl < -max_daily_loss × total_value`), `execute_trade` still executes
a BUY of 10 shares at $100 — it returns `True`, debits the cash and records
the trade.  `check_daily_loss_limit` (which would return `False` here) is
dead code: `execute_trade` never consults it nor `daily_pnl`. -/
theorem C3_theorem :
    portfolioLoss40k.daily_pnl < -(rmLoss3.max_daily_loss * portfolioLoss40k.total_value) ∧
    RiskManager.check_daily_loss_limit rmLoss3 portfolioLoss40k.daily_pnl = false ∧
    (execute_trade rmLoss3 portfolioLoss40k [] "AAPL" "BUY" 10 100).1 = true ∧
    (execute_trade rmLoss3 portfolioLoss40k [] "AAPL" "BUY" 10 100).2.1.cash = 998999 ∧
    (execute_trade rmLoss3 portfolioLoss40k [] "AAPL" "BUY" 10 100).2.2.length = 1 := by
  refine ⟨?_, ?_, ?_, ?_, ?_⟩ <;>
    norm_num [execute_trade, RiskManager.check_position_limit,
      RiskManager.check_daily_loss_limit, rmLoss3, portfolioLoss40k, initialPortfolio]

/-- C4: the correlation gate is never enforced.  With an existing non-zero
position of 100 ETH and BTC/ETH correlation 0.8 above the threshold 0.7,
`check_correlation_risk` would reject a BTC trade (it returns `False`), yet
`execute_trade` executes a BUY of 1 BTC at $100 anyway — it returns `True`
and records the trade: `execute_trade` never consults the correlation
check. -/
theorem C4_theorem :
    portfolioEth.positions "ETH" = 100 ∧
    RiskManager.default.correlation_threshold <
      |dictGet (dictGet assetsCorrelation "BTC" []) "ETH" 0| ∧
    RiskManager.check_correlation_risk RiskManager.default "BTC" [("ETH", 100)]
      assetsCorrelation = false ∧
    (execute_trade RiskManager.default portfolioEth [] "BTC" "BUY" 1 100).1 = true ∧
    (execute_trade RiskManager.default portfolioEth [] "BTC" "BUY" 1 100).2.2.length = 1 := by
  have hcor : dictGet (dictGet assetsCorrelation "BTC" []) "ETH" 0 = 4/5 := by
    simp [dictGet, assetsCorrelation, List.find?]
  refine ⟨rfl, ?_, ?_, ?_, ?_⟩
  · rw [hcor, abs_of_nonneg (by norm_num : (0:ℚ) ≤ 4/5)]
    norm_num [RiskManager.default]
  · simp [RiskManager.check_correlation_risk, hcor, RiskManager.default]
    rw [abs_of_nonneg (by norm_num : (0:ℚ) ≤ 4/5)]
    norm_num
  · norm_num [execute_trade, RiskManager.check_position_limit,
      RiskManager.default, portfolioEth, initialPortfolio]
  · norm_num [execute_trade, RiskManager.check_position_limit,
      RiskManager.default, portfolioEth, initialPortfolio]

/-- Helper: the price-volume cross sum of a constant price list is the
constant times the total volume. -/
theorem zip_const_mul_sum (p : ℝ) :
    ∀ (prices : List ℝ) (volumes : List ℤ), (∀ x ∈ prices, x = p) →
      prices.length = volumes.length →
      ((prices.zip volumes).map fun pv => pv.1 * (pv.2 : ℝ)).sum = p * (volumes.sum : ℝ)
  | [], volumes, _, hlen => by
      have hv : volumes = [] := List.length_eq_zero.mp (by simpa using hlen.symm)
      simp [hv]
  | a :: t, volumes, hconst, hlen => by
      cases volumes with
      | nil => simp at hlen
      | cons v vs =>
          have ha : a = p := hconst a (List.mem_cons_self a t)
          have ht : ∀ x ∈ t, x = p := fun x hx => hconst x (List.mem_cons_of_mem a hx)
          have hl : t.length = vs.length := by simpa using hlen
          simp only [List.zip_cons_cons, List.map_cons, List.sum_cons, List.sum_cons]
          rw [zip_const_mul_sum p t vs ht hl, ha]
          push_cast
          ring

/-- C7, counterexample: the claim quantifies over *every* volume sequence,
but `calculate_vwap` returns the zero-total-volume fallback 0, not the
constant price: for the constant price list `[100]` and volumes `[0]` the
VWAP is `0 ≠ 100`. -/
theorem C7_counterexample :
    AdvancedVWAPStrategy.calculate_vwap [(100 : ℝ)] [0] = 0 ∧ (0 : ℝ) ≠ 100 := by
  constructor
  · simp [AdvancedVWAPStrategy.calculate_vwap]
  · norm_num

/-- C7, amended: for every non-empty constant price sequence (all elements
equal `p`) and every volume sequence of the same length whose total volume is
positive, `calculate_vwap` returns `p`.  (When the total volume is not
positive the source's fallback returns 0 instead.) -/
theorem C7_theorem (p : ℝ) (prices : List ℝ) (volumes : List ℤ)
    (hne : prices ≠ []) (hlen : prices.length = volumes.length)
    (hconst : ∀ x ∈ prices, x = p) (hvol : 0 < volumes.sum) :
    AdvancedVWAPStrategy.calculate_vwap prices volumes = p := by
  have hvne : volumes ≠ [] := by
    intro h
    rw [h] at hlen
    exact hne (List.length_eq_zero.mp (by simpa using hlen))
  unfold AdvancedVWAPStrategy.calculate_vwap
  rw [if_neg (by simp [List.isEmpty_iff, hne, hvne]), if_pos hvol,
    zip_const_mul_sum p prices volumes hconst hlen]
  have hz : ((volumes.sum : ℤ) : ℝ) ≠ 0 := (Int.cast_pos.mpr hvol).ne'
  rw [mul_div_assoc, div_self hz, mul_one]

/-- C7, witness: the specification's scenario — prices
`[100,100,100,100,100]`, volumes `[1,1,1,1,1]` — satisfies the hypotheses of
`C7_theorem` and the VWAP is exactly 100. -/
theorem C7_witness :
    (0 : ℤ) < ([1, 1, 1, 1, 1] : List ℤ).sum ∧
    AdvancedVWAPStrategy.calculate_vwap [100, 100, 100, 100, 100] [1, 1, 1, 1, 1] = 100 := by
  refine ⟨by decide, ?_⟩
  exact C7_theorem 100 [100, 100, 100, 100, 100] [1, 1, 1, 1, 1]
    (by simp) (by simp) (by simp) (by decide)

/-- C8: for every standard-deviation multiplier `k ≥ 0` (the strategy is
always constructed with the default 2.0), every period and every price list,
the triple returned by `calculate_bollinger_bands` satisfies
`upper ≥ middle ≥ lower`, including the insufficient-history fallback
`(0, 0, 0)`. -/
theorem C8_theorem (std_dev : ℝ) (period : ℕ) (prices : List ℝ) (h : 0 ≤ std_dev) :
    (MeanReversionStrategy.calculate_bollinger_bands std_dev period prices).2.2 ≤
      (MeanReversionStrategy.calculate_bollinger_bands std_dev period prices).2.1 ∧
    (MeanReversionStrategy.calculate_bollinger_bands std_dev period prices).2.1 ≤
      (MeanReversionStrategy.calculate_bollinger_bands std_dev period prices).1 := by
  unfold MeanReversionStrategy.calculate_bollinger_bands
  split_ifs with h1
  · exact ⟨le_refl 0, le_refl 0⟩
  · dsimp only
    constructor
    all_goals
      generalize hS : Real.sqrt _ = s
      have hs : 0 ≤ s := by rw [← hS]; exact Real.sqrt_nonneg _
      have : 0 ≤ std_dev * s := mul_nonneg h hs
      linarith

/-- C8, witness: the theorem at the strategy's actual configuration
(`std_dev = 2`, `period = 20`) and the empty price history (the fallback
branch). -/
theorem C8_witness :
    0 ≤ (2 : ℝ) ∧
    ((MeanReversionStrategy.calculate_bollinger_bands 2 20 []).2.2 ≤
       (MeanReversionStrategy.calculate_bollinger_bands 2 20 []).2.1 ∧
     (MeanReversionStrategy.calculate_bollinger_bands 2 20 []).2.1 ≤
       (MeanReversionStrategy.calculate_bollinger_bands 2 20 []).1) :=
  ⟨by norm_num, C8_theorem 2 20 [] (by norm_num)⟩

/-- Helper: in a `Chain'`-related list, every pair of the `tail.zip self`
pairing (i.e. every consecutive pair, later element first) is related. -/
theorem chain'_zip_tail {α : Type} {R : α → α → Prop} :
    ∀ (l : List α), l.Chain' R → ∀ pr ∈ l.tail.zip l, R pr.2 pr.1
  | [], _, pr, h => by simp at h
  | [_], _, pr, h => by simp at h
  | a :: b :: t, hc, pr, h => by
      rw [List.chain'_cons] at hc
      simp only [List.tail_cons, List.zip_cons_cons, List.mem_cons] at h
      rcases h with h | h
      · subst h
        exact hc.1
      · exact chain'_zip_tail (b :: t) hc.2 pr (by simpa using h)

/-- Helper: `priceDiffs` has one fewer element than the price list. -/
theorem priceDiffs_length (prices : List ℝ) :
    (priceDiffs prices).length = prices.length - 1 := by
  simp [priceDiffs, List.length_zip]

/-- Helper: on a strictly increasing price list every consecutive difference
is positive. -/
theorem priceDiffs_pos (prices : List ℝ) (h : prices.Chain' (· < ·)) :
    ∀ c ∈ priceDiffs prices, 0 < c := by
  intro c hc
  simp only [priceDiffs, List.mem_map] at hc
  obtain ⟨pr, hpr, rfl⟩ := hc
  have := chain'_zip_tail prices h pr hpr
  linarith

/-- Helper: on a strictly decreasing price list every consecutive difference
is negative. -/
theorem priceDiffs_neg (prices : List ℝ) (h : prices.Chain' (· > ·)) :
    ∀ c ∈ priceDiffs prices, c < 0 := by
  intro c hc
  simp only [priceDiffs, List.mem_map] at hc
  obtain ⟨pr, hpr, rfl⟩ := hc
  have := chain'_zip_tail prices h pr hpr
  simp only [gt_iff_lt] at this
  linarith

/-- C6: `calculate_rsi` returns the neutral 50 whenever fewer than
`period + 1` prices are supplied; with at least `period + 1` prices it
returns 100 whenever the trailing average loss is 0 — in particular for
every strictly increasing price sequence — and returns 0 for every strictly
decreasing price sequence.  (`period` ranges over the meaningful RSI periods
`≥ 1`; the strategy always calls with the default 14.) -/
theorem C6_theorem (period : ℕ) (prices : List ℝ) (hp : 0 < period) :
    (prices.length < period + 1 → MeanReversionStrategy.calculate_rsi prices period = 50) ∧
    (period + 1 ≤ prices.length → MeanReversionStrategy.avgLoss prices period = 0 →
      MeanReversionStrategy.calculate_rsi prices period = 100) ∧
    (period + 1 ≤ prices.length → prices.Chain' (· < ·) →
      MeanReversionStrategy.calculate_rsi prices period = 100) ∧
    (period + 1 ≤ prices.length → prices.Chain' (· > ·) →
      MeanReversionStrategy.calculate_rsi prices period = 0) := by
  refine ⟨?_, ?_, ?_, ?_⟩
  · intro h
    unfold MeanReversionStrategy.calculate_rsi
    rw [if_pos h]
  · intro hlen h0
    unfold MeanReversionStrategy.calculate_rsi
    rw [if_neg (not_lt.mpr hlen), if_pos h0]
  · intro hlen hchain
    have h0 : MeanReversionStrategy.avgLoss prices period = 0 := by
      unfold MeanReversionStrategy.avgLoss
      have hz : (lastN period (MeanReversionStrategy.rsiLosses prices)).sum = 0 := by
        apply List.sum_eq_zero
        intro x hx
        have hx' : x ∈ MeanReversionStrategy.rsiLosses prices :=
          List.drop_subset _ _ hx
        simp only [MeanReversionStrategy.rsiLosses, List.mem_map] at hx'
        obtain ⟨c, hc, rfl⟩ := hx'
        rw [if_pos (priceDiffs_pos prices hchain c hc)]
      rw [hz, zero_div]
    unfold MeanReversionStrategy.calculate_rsi
    rw [if_neg (not_lt.mpr hlen), if_pos h0]
  · intro hlen hchain
    have hgain : MeanReversionStrategy.avgGain prices period = 0 := by
      unfold MeanReversionStrategy.avgGain
      have hz : (lastN period (MeanReversionStrategy.rsiGains prices)).sum = 0 := by
        apply List.sum_eq_zero
        intro x hx
        have hx' : x ∈ MeanReversionStrategy.rsiGains prices :=
          List.drop_subset _ _ hx
        simp only [MeanReversionStrategy.rsiGains, List.mem_map] at hx'
        obtain ⟨c, hc, rfl⟩ := hx'
        rw [if_neg (not_lt.mpr (le_of_lt (priceDiffs_neg prices hchain c hc)))]
      rw [hz, zero_div]
    have hlosspos : 0 < MeanReversionStrategy.avgLoss prices period := by
      unfold MeanReversionStrategy.avgLoss
      apply div_pos
      · apply List.sum_pos
        · intro x hx
          have hx' : x ∈ MeanReversionStrategy.rsiLosses prices :=
            List.drop_subset _ _ hx
          simp only [MeanReversionStrategy.rsiLosses, List.mem_map] at hx'
          obtain ⟨c, hc, rfl⟩ := hx'
          have hcneg := priceDiffs_neg prices hchain c hc
          rw [if_neg (not_lt.mpr (le_of_lt hcneg))]
          exact abs_pos.mpr (ne_of_lt hcneg)
        · have hll : (MeanReversionStrategy.rsiLosses prices).length =
              prices.length - 1 := by
            simp [MeanReversionStrategy.rsiLosses, priceDiffs_length]
          intro hnil
          have : (lastN period (MeanReversionStrategy.rsiLosses prices)).length = 0 := by
            rw [hnil]; rfl
          rw [lastN, List.length_drop, hll] at this
          omega
      · exact_mod_cast hp
    unfold MeanReversionStrategy.calculate_rsi
    rw [if_neg (not_lt.mpr hlen), if_neg (ne_of_gt hlosspos)]
    rw [hgain, zero_div]
    show (100 : ℝ) - 100 / (1 + 0) = 0
    norm_num

/-- C6, witness: 15 strictly increasing unit-step prices give RSI 100 and 15
strictly decreasing unit-step prices give RSI 0 at the default period 14. -/
theorem C6_witness :
    0 < 14 ∧
    MeanReversionStrategy.calculate_rsi
      [1, 2, 3, 4, 5, 6, 7, 8, 9, 10, 11, 12, 13, 14, 15] 14 = 100 ∧
    MeanReversionStrategy.calculate_rsi
      [15, 14, 13, 12, 11, 10, 9, 8, 7, 6, 5, 4, 3, 2, 1] 14 = 0 := by
  refine ⟨by norm_num, ?_, ?_⟩
  · exact (C6_theorem 14 [1, 2, 3, 4, 5, 6, 7, 8, 9, 10, 11, 12, 13, 14, 15]
      (by norm_num)).2.2.1 (by simp) (by norm_num [List.chain'_cons])
  · exact (C6_theorem 14 [15, 14, 13, 12, 11, 10, 9, 8, 7, 6, 5, 4, 3, 2, 1]
      (by norm_num)).2.2.2 (by simp) (by norm_num [List.chain'_cons])

/-- Helper: on a buffer of positive prices of length at least `period ≥ 1`,
the Bollinger upper band is positive (the moving average of positive prices
is positive and `std_dev × std ≥ 0`). -/
theorem bollinger_upper_pos (std_dev : ℝ) (period : ℕ) (ph : List ℝ)
    (hp : 0 < period) (hk : 0 ≤ std_dev)
    (hpos : ∀ x ∈ ph, 0 < x) (hlen : period ≤ ph.length) :
    0 < (MeanReversionStrategy.calculate_bollinger_bands std_dev period ph).1 := by
  unfold MeanReversionStrategy.calculate_bollinger_bands
  rw [if_neg (not_lt.mpr hlen)]
  dsimp only
  have h1 : (lastN period ph).length = period := by
    rw [lastN, List.length_drop]
    omega
  have h2 : ∀ x ∈ lastN period ph, 0 < x := fun x hx => hpos x (List.drop_subset _ _ hx)
  have hne : lastN period ph ≠ [] := by
    intro h
    rw [h] at h1
    simp at h1
    omega
  have hsum : 0 < (lastN period ph).sum := List.sum_pos _ h2 hne
  have hsma : 0 < (lastN period ph).sum / ((lastN period ph).length : ℝ) := by
    apply div_pos hsum
    rw [h1]
    exact_mod_cast hp
  generalize hS : Real.sqrt _ = s
  have hs : 0 ≤ s := by rw [← hS]; exact Real.sqrt_nonneg _
  have := mul_nonneg hk hs
  linarith

/-- C9, amended: the `(action, confidence)` pairs of the two strategies obey:
the mean-reversion confidence lies in `[0, 1]` whenever the price history and
the current price are positive (with a meaningful period `≥ 1` and the
non-negative band multiplier the strategy is constructed with), and the
VWAP-strategy confidence is non-negative for every input.  The VWAP
confidence is `abs(signal_strength)` and is *not* bounded by 1 (see the
counterexample). -/
theorem C9_theorem (period : ℕ) (std_dev : ℝ) (hist : List ℝ) (price : ℝ)
    (lookback : ℕ) (vs : AdvancedVWAPStrategy.State) (cp : ℝ) (cv : ℤ)
    (hp : 0 < period) (hk : 0 ≤ std_dev)
    (hpos : ∀ x ∈ hist, 0 < x) (hpr : 0 < price) :
    (0 ≤ (MeanReversionStrategy.generate_signal period std_dev hist price).2.2 ∧
      (MeanReversionStrategy.generate_signal period std_dev hist price).2.2 ≤ 1) ∧
    0 ≤ (AdvancedVWAPStrategy.generate_signal lookback vs cp cv).2.2 := by
  constructor
  · have hph : ∀ x ∈ hist ++ [price], 0 < x := by
      intro x hx
      rcases List.mem_append.mp hx with h | h
      · exact hpos x h
      · rw [List.mem_singleton.mp h]
        exact hpr
    simp only [MeanReversionStrategy.generate_signal]
    set ph1 := if period * 2 < (hist ++ [price]).length then (hist ++ [price]).drop 1
               else hist ++ [price] with hph1
    have hpos1 : ∀ x ∈ ph1, 0 < x := by
      rw [hph1]
      split_ifs
      · intro x hx
        exact hph x (List.drop_subset _ _ hx)
      · exact hph
    split_ifs with hw hbuy hsell
    · exact ⟨le_refl 0, by norm_num⟩
    · -- BUY branch: 0 < price < lower band
      dsimp only
      have hl : 0 < (MeanReversionStrategy.calculate_bollinger_bands std_dev period ph1).2.2 :=
        lt_trans hpr hbuy.1
      refine ⟨le_min (by norm_num) ?_, min_le_left _ _⟩
      apply mul_nonneg (div_nonneg (by linarith [hbuy.1]) (le_of_lt hl)) (by norm_num)
    · -- SELL branch: 0 < upper band < price
      dsimp only
      have hu : 0 < (MeanReversionStrategy.calculate_bollinger_bands std_dev period ph1).1 :=
        bollinger_upper_pos std_dev period ph1 hp hk hpos1 (not_lt.mp hw)
      refine ⟨le_min (by norm_num) ?_, min_le_left _ _⟩
      apply mul_nonneg (div_nonneg (by linarith [hsell.1]) (le_of_lt hu)) (by norm_num)
    · exact ⟨le_refl 0, by norm_num⟩
  · simp only [AdvancedVWAPStrategy.generate_signal]
    split_ifs <;> dsimp only <;> norm_num

/-- C9, witness: the amended theorem at `period = 20`, `std_dev = 2`, empty
histories and price 1: both confidences are in range. -/
theorem C9_witness :
    (0 < 20 ∧ 0 ≤ (2 : ℝ) ∧ 0 < (1 : ℝ)) ∧
    (0 ≤ (MeanReversionStrategy.generate_signal 20 2 [] 1).2.2 ∧
      (MeanReversionStrategy.generate_signal 20 2 [] 1).2.2 ≤ 1) ∧
    0 ≤ (AdvancedVWAPStrategy.generate_signal 20 ⟨[], []⟩ 1 1).2.2 :=
  ⟨⟨by norm_num, by norm_num, by norm_num⟩,
   C9_theorem 20 2 [] 1 20 ⟨[], []⟩ 1 1 (by norm_num) (by norm_num)
     (by simp) (by norm_num)⟩

/-- Helper evaluation: the return series of the price buffer
`[1, 1, 1, 1, 100]` is `[0, 0, 0, 99]`. -/
theorem pctReturns_spike : pctReturns [1, 1, 1, 1, (100 : ℝ)] = [0, 0, 0, 99] := by
  norm_num [pctReturns]

/-- Helper evaluation: the sample standard deviation of `[0, 0, 0, 99]` is
exactly `99 / 2` (the sample variance is `9801 / 4 = (99 / 2)²`). -/
theorem stdev_spike : stdev [0, 0, 0, (99 : ℝ)] = 99 / 2 := by
  have h : stdev [0, 0, 0, (99 : ℝ)] = Real.sqrt ((99 / 2) ^ 2) := by
    unfold stdev
    norm_num
  rw [h, Real.sqrt_sq (by norm_num)]

/-- Helper evaluation: `calculate_volatility` on `[1, 1, 1, 1, 100]`. -/
theorem volatility_spike :
    AdvancedVWAPStrategy.calculate_volatility [1, 1, 1, 1, (100 : ℝ)] = 99 / 2 := by
  unfold AdvancedVWAPStrategy.calculate_volatility
  rw [if_neg (by norm_num), pctReturns_spike, if_pos (by norm_num), stdev_spike]

/-- Helper evaluation: `calculate_vwap` on `[1, 1, 1, 1, 100]` with unit
volumes is `104 / 5`. -/
theorem vwap_spike :
    AdvancedVWAPStrategy.calculate_vwap [1, 1, 1, 1, (100 : ℝ)] [1, 1, 1, 1, 1] = 104 / 5 := by
  norm_num [AdvancedVWAPStrategy.calculate_vwap]

/-- Helper evaluation: the OLS slope of `[1, 1, 1, 1, 100]` is `99 / 5`. -/
theorem momentum_spike :
    AdvancedVWAPStrategy.calculate_momentum [1, 1, 1, 1, (100 : ℝ)] = 99 / 5 := by
  have hr : List.range 5 = [0, 1, 2, 3, 4] := rfl
  norm_num [AdvancedVWAPStrategy.calculate_momentum, hr]

/-- C9, counterexample: the VWAP strategy's confidence is not bounded by 1.
Feeding a fresh `AdvancedVWAPStrategy` four ticks at price 1 (unit volume)
and then a fifth tick at price 100 — i.e. calling `generate_signal` on the
buffer state `([1,1,1,1], [1,1,1,1])` with the tick `(100, 1)` — yields the
pair `("SELL", 128912437/80453750 ≈ 1.602)`: a confidence strictly greater
than 1, refuting `confidence ∈ [0, 1]`. -/
theorem C9_counterexample :
    (AdvancedVWAPStrategy.generate_signal 20 ⟨[], []⟩ 1 1).1 = ⟨[1], [1]⟩ ∧
    (AdvancedVWAPStrategy.generate_signal 20 ⟨[1], [1]⟩ 1 1).1 = ⟨[1, 1], [1, 1]⟩ ∧
    (AdvancedVWAPStrategy.generate_signal 20 ⟨[1, 1], [1, 1]⟩ 1 1).1 =
      ⟨[1, 1, 1], [1, 1, 1]⟩ ∧
    (AdvancedVWAPStrategy.generate_signal 20 ⟨[1, 1, 1], [1, 1, 1]⟩ 1 1).1 =
      ⟨[1, 1, 1, 1], [1, 1, 1, 1]⟩ ∧
    1 < (AdvancedVWAPStrategy.generate_signal 20 ⟨[1, 1, 1, 1], [1, 1, 1, 1]⟩ 100 1).2.2 := by
  refine ⟨by simp [AdvancedVWAPStrategy.generate_signal],
    by simp [AdvancedVWAPStrategy.generate_signal],
    by simp [AdvancedVWAPStrategy.generate_signal],
    by simp [AdvancedVWAPStrategy.generate_signal], ?_⟩
  simp only [AdvancedVWAPStrategy.generate_signal, List.cons_append, List.nil_append,
    List.length_cons, List.length_nil]
  norm_num [vwap_spike, momentum_spike, volatility_spike]
  rw [abs_of_pos (by norm_num)]
  norm_num
